import Mathlib

/-!
Verification development for the `systray` Go package: a shallow embedding of
the StatusNotifierWatcher registry, the StatusNotifierItem proxy decoders, the
dbusmenu layout decoder and the icon-set decoder, together with theorems about
the behaviours they exhibit.

Go runtime values delivered by the D-Bus library (`any` / `dbus.Variant`
payloads) are modelled by the inductive `GoVal`; Go type assertions become
pattern matches on its constructors.  Go `int32` values are modelled as `Int`,
with two's-complement wrapping applied exactly where the Go code multiplies
them.  Functions that can panic at runtime (failed unchecked type assertion,
close of an already-closed channel) return `Except GoPanic _`.
-/

namespace Systray

/-- A Go dynamic value as produced by the D-Bus library.  The constructors
mirror the distinct Go runtime types that the package's type assertions
discriminate: `int32`, `string`, `[]byte`, `bool`, `[]any`, `[][]any`,
`[]dbus.Variant` (each element stored unwrapped, i.e. as its `Value()`),
and `map[string]dbus.Variant` (values stored unwrapped, as an association
list). `vOther` stands for every other runtime type. -/
inductive GoVal where
  | vInt32 (n : Int)
  | vString (s : String)
  | vBytes (bs : List Nat)
  | vBool (b : Bool)
  | vSlice (xs : List GoVal)
  | vSliceSlice (xs : List (List GoVal))
  | vVariantSlice (xs : List GoVal)
  | vVariantMap (entries : List (String × GoVal))
  | vOther
  deriving Repr

/-- Go runtime panics that the modelled code can raise. -/
inductive GoPanic where
  /-- Failed unchecked interface type assertion, e.g. `x.([]any)`. -/
  | interfaceConversion
  /-- `close` of an already-closed channel. -/
  | closeOfClosedChannel
  deriving DecidableEq, Repr

/-- Constant `StatusNotifierItemPath` from item.go. -/
def StatusNotifierItemPath : String := "/StatusNotifierItem"

/-! Icons (icon.go) -/

/-- Struct `Icon` from icon.go: width, height (Go `int32`) and ARGB32 bytes. -/
structure Icon where
  Width : Int
  Height : Int
  Bytes : List Nat
  deriving DecidableEq, Repr

/-- Struct `IconSet` from icon.go: the ordered list of icon resolutions. -/
structure IconSet where
  icons : List Icon
  deriving DecidableEq, Repr

/-- Wrapping of an integer into the `int32` range (two's complement), as Go
arithmetic on `int32` behaves. -/
def int32Wrap (n : Int) : Int := (n + 2 ^ 31) % 2 ^ 32 - 2 ^ 31

/-- The sort key used by the comparator in `NewIconSetFromDBusProperty`
(icon.go `sort.Slice` closure): the Go `int32` product `Width * Height`,
which wraps on overflow. -/
def Icon.area (i : Icon) : Int := int32Wrap (i.Width * i.Height)

instance iconAreaLEDec : DecidableRel (fun a b : Icon => a.area ≤ b.area) :=
  fun a b => Int.decLe a.area b.area

instance iconAreaLETotal : IsTotal Icon (fun a b => a.area ≤ b.area) :=
  ⟨fun a b => Int.le_total a.area b.area⟩

instance iconAreaLETrans : IsTrans Icon (fun a b => a.area ≤ b.area) :=
  ⟨fun _ _ _ h h' => le_trans h h'⟩

/-- Function `NewIconFromDBusPixmap` from icon.go.  The Go function asserts its `any`
argument to `[]any` of length exactly 3 whose elements are `int32`, `int32`
and `[]byte`; any other shape yields an error (modelled as `none`). -/
def NewIconFromDBusPixmap : GoVal → Option Icon
  | .vSlice [.vInt32 w, .vInt32 h, .vBytes bs] => some ⟨w, h, bs⟩
  | _ => none

/-- Function `NewIconSetFromDBusProperty` from icon.go.  The property value must be a
`[][]any`; each inner slice is decoded by `NewIconFromDBusPixmap`, failures
are skipped (`continue`), and the icons are sorted by the comparator
`a.Width*a.Height < b.Width*b.Height` via `sort.Slice` (modelled by a sort
producing a list ordered by the same key). -/
def NewIconSetFromDBusProperty : GoVal → Option IconSet
  | .vSliceSlice pixmaps =>
      some ⟨List.insertionSort (fun a b => a.area ≤ b.area)
        (pixmaps.filterMap (fun p => NewIconFromDBusPixmap (.vSlice p)))⟩
  | _ => none

/-- Method `IconSet.GetAll` from icon.go. -/
def IconSet.GetAll (s : IconSet) : List Icon := s.icons

/-- Method `IconSet.GetSmallest` from icon.go: `nil` when empty, else the first
element. -/
def IconSet.GetSmallest (s : IconSet) : Option Icon :=
  match s.icons with
  | [] => none
  | i :: _ => some i

/-- Method `IconSet.GetLargest` from icon.go: `nil` when empty, else the last
element (`icons[len(icons)-1]`). -/
def IconSet.GetLargest (s : IconSet) : Option Icon :=
  match s.icons with
  | [] => none
  | l => l.getLast?

/-! Menu layout (layout.go) -/

/-- Type `LayoutNode` from layout.go: a recursive menu-layout tree.  `Properties`
keeps the variants' unwrapped values (`value.Value()`), as the Go code copies
them into a `map[string]any`. -/
inductive LayoutNode where
  | mk (ID : Int) (Properties : List (String × GoVal)) (Children : List LayoutNode)

/-- The `ID` field of a `LayoutNode`. -/
def LayoutNode.ID : LayoutNode → Int
  | .mk i _ _ => i

/-- The `Properties` field of a `LayoutNode`. -/
def LayoutNode.Properties : LayoutNode → List (String × GoVal)
  | .mk _ ps _ => ps

/-- The `Children` field of a `LayoutNode`. -/
def LayoutNode.Children : LayoutNode → List LayoutNode
  | .mk _ _ cs => cs

mutual

/-- Function `NewLayoutNode` from layout.go.  `data` must assert to `[]any` of length 3
whose elements assert to `int32`, `map[string]dbus.Variant` and
`[]dbus.Variant`; otherwise an error is returned (modelled as `none`).
Children are decoded recursively from each child variant's `Value()`;
a child that fails to decode is skipped (`continue`). -/
def NewLayoutNode : GoVal → Option LayoutNode
  | .vSlice [.vInt32 id, .vVariantMap props, .vVariantSlice children] =>
      some (.mk id props (layoutChildren children))
  | _ => none

/-- The child-decoding loop of `NewLayoutNode`: append the successfully
decoded children, in order, skipping failures. -/
def layoutChildren : List GoVal → List LayoutNode
  | [] => []
  | c :: cs =>
      match NewLayoutNode c with
      | none => layoutChildren cs
      | some n => n :: layoutChildren cs

end

/-! Item proxy decoders (item.go) -/

/-- godbus `dbus.Variant.String` on a variant whose payload is a Go string:
it returns the `strconv.Quote`-d payload, i.e. the string surrounded by `"`
characters (`strconv.Quote` additionally escapes quotes, backslashes and
non-printable characters; that further escaping never changes the leading
quote character and is omitted here). -/
def variantString (s : String) : String := "\"" ++ s ++ "\""

/-- Type `ItemCategory` from item.go. -/
inductive ItemCategory where
  | applicationStatus
  | communications
  | systemServices
  | hardware
  deriving DecidableEq, Repr

/-- Type `ItemStatus` from item.go. -/
inductive ItemStatus where
  | passive
  | active
  | needsAttention
  deriving DecidableEq, Repr

/-- The `Category` decoding switch in `NewItemWithObjectPath` (item.go):
`switch category.String()` over the fetched `dbus.Variant`, where `value` is
the variant's string payload.  Unmatched values fall through to
`ItemCategoryApplicationStatus`. -/
def decodeItemCategory (value : String) : ItemCategory :=
  match variantString value with
  | "Communications" => .communications
  | "SystemServices" => .systemServices
  | "Hardware" => .hardware
  | _ => .applicationStatus

/-- The `Status` decoding switch in `Item.updateStatus` (item.go):
`switch status.String()` over the fetched `dbus.Variant`.  Unmatched values
fall through to `ItemStatusActive`. -/
def decodeItemStatus (value : String) : ItemStatus :=
  match variantString value with
  | "Passive" => .passive
  | "NeedsAttention" => .needsAttention
  | _ => .active

/-- Method `Item.updateTooltip` from item.go, as a function of the `ToolTip`
property-fetch outcome (`none` models a `GetProperty` error) and the current
`Tooltip` field, returning the new field value.  The Go code performs the
unchecked assertion `tooltip.Value().([]any)`, which panics when the payload
is not a `[]any`; then, if the slice has at least 3 elements and element
index 2 is a string, that string is stored. -/
def updateTooltip (fetched : Option GoVal) (current : String) :
    Except GoPanic String :=
  match fetched with
  | none => .ok current
  | some v =>
      match v with
      | .vSlice value =>
          match value with
          | _ :: _ :: .vString t :: _ => .ok t
          | _ :: _ :: _ :: _ => .ok current
          | _ => .ok current
      | _ => .error .interfaceConversion

/-! Identifier parsing (item.go) -/

/-- Model of `strings.Cut(s, "/")` on the character list of `s`: `some (before, after)`
splitting at the first `/`, or `none` when no `/` occurs. -/
def cutSlash : List Char → Option (List Char × List Char)
  | [] => none
  | c :: cs =>
      if c = '/' then some ([], cs)
      else
        match cutSlash cs with
        | some p => some (c :: p.1, p.2)
        | none => none

/-- Function `uniqueNameAndPathFromItemName` from item.go: split the item name at the
first `/`; without a `/` the object path defaults to `/StatusNotifierItem`,
otherwise the path keeps its leading `/`.  (The Go function also returns an
`error` which is `nil` on every path.) -/
def uniqueNameAndPathFromItemName (itemName : String) : String × String :=
  match cutSlash itemName.data with
  | none => (itemName, StatusNotifierItemPath)
  | some p => (⟨p.1⟩, ⟨'/' :: p.2⟩)

/-- Function `uniqueNameAndPathFromDBusSignal` from item.go, as a function of the
signal body: an empty body or a non-string first element is an error. -/
def uniqueNameAndPathFromDBusSignal (body : List GoVal) :
    Option (String × String) :=
  match body with
  | [] => none
  | b :: _ =>
      match b with
      | .vString itemName => some (uniqueNameAndPathFromItemName itemName)
      | _ => none

/-! Watcher (watcher.go)

The watcher holds the D-Bus connection only to issue bus operations; those
operations are modelled as follows.  Signal emission and match-rule
bookkeeping are recorded in the state (`emitted` appends; `matchRules`
appends on `AddMatchSignal` and erases one occurrence on
`RemoveMatchSignal`).  The probe performed by constructing an item
(`NewItemWithObjectPath`, whose first bus action is a `Properties.Get` of
`org.kde.StatusNotifierItem.Title`) is an oracle
`probe : String → String → Bool` over `(uniqueName, objectPath)`.
`RequestName` / `ReleaseName` / `Export` outcomes are oracle parameters of
`Listen` and `Close`.  `prop.Export` republishes properties derived from the
state (`RegisteredStatusNotifierItems = items`) and changes no state. -/

/-- The exported D-Bus errors returned by watcher methods. -/
inductive DBusErr where
  /-- `dbus.ErrMsgUnknownInterface`. -/
  | unknownInterface
  deriving DecidableEq, Repr

/-- Errors returned by `Watcher.Listen` and `Watcher.Close`. -/
inductive WatcherErr where
  /-- "listen: watcher is closed". -/
  | alreadyClosed
  /-- "listen: failed to request name ...". -/
  | requestNameFailed
  /-- "listen: name ... already taken". -/
  | nameTaken
  /-- "listen: failed to export ...". -/
  | exportFailed
  /-- `ReleaseName` returned an error in `Close`. -/
  | releaseNameFailed
  deriving DecidableEq, Repr

/-- Model of `strings.HasPrefix(s, "/")`. -/
def startsWithSlash (s : String) : Bool :=
  match s.data with
  | [] => false
  | c :: _ => c = '/'

/-- The `Watcher` struct from watcher.go.  `signalsOpen` models whether the
`signals` channel has been closed yet; `matchRules` records the arg-0 keys of
the currently installed `NameOwnerChanged` match rules; `emitted` records the
emitted watcher signals as `(member, argument)` pairs. -/
structure WatcherState where
  closed : Bool
  signalsOpen : Bool
  hosts : List String
  items : List String
  matchRules : List String
  emitted : List (String × String)
  deriving DecidableEq, Repr

/-- Function `NewWatcher` from watcher.go: not closed, fresh (open) signals channel,
no hosts, items, match rules or emitted signals. -/
def NewWatcher : WatcherState :=
  { closed := false, signalsOpen := true, hosts := [], items := [],
    matchRules := [], emitted := [] }

/-- The exported `RegisteredStatusNotifierItems` property republished by
`Watcher.exportProperties`. -/
def RegisteredStatusNotifierItems (w : WatcherState) : List String := w.items

/-- The exported `IsStatusNotifierHostRegistered` property republished by
`Watcher.exportProperties`. -/
def IsStatusNotifierHostRegistered (w : WatcherState) : Bool :=
  decide (0 < w.hosts.length)

/-- Method `Watcher.RegisterStatusNotifierItem` from watcher.go.
`slices.Contains(w.items, name)` short-circuits to success; otherwise the
object path defaults to `/StatusNotifierItem` and the unique name to `name`,
overridden to `(name, sender)` when `name` starts with `/`; the probe
(`NewItemWithObjectPath`) failing returns `dbus.ErrMsgUnknownInterface`;
otherwise the identifier `uniqueName + objectPath` is appended, a
`NameOwnerChanged` match rule for arg0 = `sender` is added,
`StatusNotifierItemRegistered(identifier)` is emitted and the properties are
republished. -/
def RegisterStatusNotifierItem (probe : String → String → Bool)
    (w : WatcherState) (name sender : String) :
    WatcherState × Option DBusErr :=
  if w.items.contains name then (w, none)
  else
    let objectPath := if startsWithSlash name then name else StatusNotifierItemPath
    let uniqueName := if startsWithSlash name then sender else name
    if probe uniqueName objectPath = false then
      (w, some .unknownInterface)
    else
      let identifier := uniqueName ++ objectPath
      ({ w with
          items := w.items ++ [identifier],
          matchRules := w.matchRules ++ [sender],
          emitted := w.emitted ++ [("StatusNotifierItemRegistered", identifier)] },
        none)

/-- Method `Watcher.Listen` from watcher.go: fails when closed; then `RequestName`
(oracle `requestNameOk` for transport success, `primaryOwner` for the
reply), then `Export` (oracle `exportOk`); on success it subscribes and
republishes properties, changing no modelled state. -/
def Listen (requestNameOk primaryOwner exportOk : Bool) (w : WatcherState) :
    WatcherState × Option WatcherErr :=
  if w.closed then (w, some .alreadyClosed)
  else if requestNameOk = false then (w, some .requestNameFailed)
  else if primaryOwner = false then (w, some .nameTaken)
  else if exportOk = false then (w, some .exportFailed)
  else (w, none)

/-- Method `Watcher.Close` from watcher.go: `ReleaseName` (oracle `releaseOk`; on
error the method returns it), then removal of the `NameOwnerChanged` match
rule of every host and of every item's unique-name component (extracted by
`uniqueNameAndPathFromItemName`), then `RemoveSignal` and `close(w.signals)`
— which panics when the channel is already closed — and finally
`closed = true`. -/
def Close (releaseOk : Bool) (w : WatcherState) :
    Except GoPanic (WatcherState × Option WatcherErr) :=
  if releaseOk = false then .ok (w, some .releaseNameFailed)
  else
    let rules := w.hosts.foldl (fun rs h => rs.erase h) w.matchRules
    let rules := w.items.foldl
      (fun rs it => rs.erase (uniqueNameAndPathFromItemName it).1) rules
    if w.signalsOpen then
      .ok ({ w with matchRules := rules, signalsOpen := false, closed := true },
        none)
    else
      .error .closeOfClosedChannel

/-! Helper lemmas -/

/-- A quoted variant rendering never equals a string that does not start with
a quote character. -/
theorem variantString_ne (s t : String) (h : t.data.head? ≠ some '"') :
    variantString s ≠ t := by
  intro he
  apply h
  rw [← he]
  simp [variantString]

/-- Model of `strings.Cut` returns `none` when the separator does not occur. -/
theorem cutSlash_not_mem (a : List Char) (h : '/' ∉ a) : cutSlash a = none := by
  induction a with
  | nil => rfl
  | cons c cs ih =>
    rw [List.mem_cons, not_or] at h
    simp only [cutSlash]
    rw [if_neg (fun hc => h.1 hc.symm), ih h.2]

/-- Model of `strings.Cut` splits at the first separator occurrence. -/
theorem cutSlash_append (a b : List Char) (h : '/' ∉ a) :
    cutSlash (a ++ '/' :: b) = some (a, b) := by
  induction a with
  | nil => simp [cutSlash]
  | cons c cs ih =>
    rw [List.mem_cons, not_or] at h
    simp only [List.cons_append, cutSlash, List.append_eq]
    rw [if_neg (fun hc => h.1 hc.symm), ih h.2]

/-- The child-decoding loop of `NewLayoutNode` is an order-preserving
`filterMap` of the recursive decoder. -/
theorem layoutChildren_eq_filterMap (cs : List GoVal) :
    layoutChildren cs = cs.filterMap NewLayoutNode := by
  induction cs with
  | nil => rfl
  | cons c cs ih =>
    unfold layoutChildren
    cases h : NewLayoutNode c <;> simp [h, ih]

/-! Claim theorems -/

/-- C2: for every input to `Watcher.RegisterStatusNotifierItem` that is not
already registered and whose probe succeeds, the stored canonical identifier
is `sender ++ name` when `name` begins with `/` (sender as unique name, name
as object path), and `name ++ "/StatusNotifierItem"` otherwise; the call
returns success. -/
theorem registerItem_canonical_identifier (probe : String → String → Bool)
    (w : WatcherState) (name sender : String)
    (hnew : w.items.contains name = false)
    (hprobe : probe (if startsWithSlash name then sender else name)
        (if startsWithSlash name then name else StatusNotifierItemPath) = true) :
    (RegisterStatusNotifierItem probe w name sender).1.items
      = w.items ++ [if startsWithSlash name then sender ++ name
          else name ++ StatusNotifierItemPath] ∧
    (RegisterStatusNotifierItem probe w name sender).2 = none := by
  unfold RegisterStatusNotifierItem
  cases hc : startsWithSlash name <;> simp_all [hc]

/-- Witness for C2: path-mode registration of
`/org/ayatana/NotificationItem/foo` by sender `:1.202` stores
`:1.202/org/ayatana/NotificationItem/foo`. -/
theorem registerItem_canonical_identifier_witness :
    (RegisterStatusNotifierItem (fun _ _ => true) NewWatcher
        "/org/ayatana/NotificationItem/foo" ":1.202").1.items
      = NewWatcher.items ++
        [if startsWithSlash "/org/ayatana/NotificationItem/foo"
          then ":1.202" ++ "/org/ayatana/NotificationItem/foo"
          else "/org/ayatana/NotificationItem/foo" ++ StatusNotifierItemPath] ∧
    (RegisterStatusNotifierItem (fun _ _ => true) NewWatcher
        "/org/ayatana/NotificationItem/foo" ":1.202").2 = none :=
  registerItem_canonical_identifier (fun _ _ => true) NewWatcher
    "/org/ayatana/NotificationItem/foo" ":1.202" (by decide) (by decide)

/-- C3: for every registration input not already present,
`Watcher.RegisterStatusNotifierItem` probes before mutating state: when the
probe of the resolved `(uniqueName, objectPath)` fails, it returns
`dbus.ErrMsgUnknownInterface` and the whole watcher state — items sequence,
match-rule set, emitted-signal history, and hence the exported
`RegisteredStatusNotifierItems` property — is unchanged. -/
theorem registerItem_probe_failure_unchanged (probe : String → String → Bool)
    (w : WatcherState) (name sender : String)
    (hnew : w.items.contains name = false)
    (hprobe : probe (if startsWithSlash name then sender else name)
        (if startsWithSlash name then name else StatusNotifierItemPath) = false) :
    RegisterStatusNotifierItem probe w name sender
        = (w, some .unknownInterface) ∧
    (RegisterStatusNotifierItem probe w name sender).1.items = w.items ∧
    (RegisterStatusNotifierItem probe w name sender).1.matchRules
        = w.matchRules ∧
    (RegisterStatusNotifierItem probe w name sender).1.emitted = w.emitted ∧
    RegisteredStatusNotifierItems (RegisterStatusNotifierItem probe w name sender).1
        = RegisteredStatusNotifierItems w := by
  unfold RegisterStatusNotifierItem RegisteredStatusNotifierItems
  cases hc : startsWithSlash name <;> simp_all [hc]

/-- Witness for C3: a failing probe for new item `:1.77` leaves the fresh
watcher unchanged and returns `UnknownInterface`. -/
theorem registerItem_probe_failure_unchanged_witness :
    RegisterStatusNotifierItem (fun _ _ => false) NewWatcher ":1.77" ":1.77"
        = (NewWatcher, some .unknownInterface) ∧
    (RegisterStatusNotifierItem (fun _ _ => false) NewWatcher ":1.77" ":1.77").1.items
        = NewWatcher.items ∧
    (RegisterStatusNotifierItem (fun _ _ => false) NewWatcher ":1.77" ":1.77").1.matchRules
        = NewWatcher.matchRules ∧
    (RegisterStatusNotifierItem (fun _ _ => false) NewWatcher ":1.77" ":1.77").1.emitted
        = NewWatcher.emitted ∧
    RegisteredStatusNotifierItems
        (RegisterStatusNotifierItem (fun _ _ => false) NewWatcher ":1.77" ":1.77").1
        = RegisteredStatusNotifierItems NewWatcher :=
  registerItem_probe_failure_unchanged (fun _ _ => false) NewWatcher
    ":1.77" ":1.77" (by decide) (by decide)

/-- The watcher state after two `RegisterStatusNotifierItem(":1.100")` calls
from sender `:1.100` (both probes succeeding), and the returned error of the
second call. -/
def registerTwice : WatcherState × Option DBusErr :=
  RegisterStatusNotifierItem (fun _ _ => true)
    (RegisterStatusNotifierItem (fun _ _ => true) NewWatcher ":1.100" ":1.100").1
    ":1.100" ":1.100"

/-- C1 (refuted — evaluation of the code at the failing input): calling
`RegisterStatusNotifierItem` twice with the same name `:1.100` and the same
sender `:1.100` appends the canonical identifier twice and emits two
`StatusNotifierItemRegistered` signals, because the dedup check
`slices.Contains(w.items, name)` compares the raw `name` against stored
identifiers of the form `name + "/StatusNotifierItem"` and therefore never
matches.  Both calls return success. -/
theorem registerItem_reregistration_duplicates :
    (RegisterStatusNotifierItem (fun _ _ => true) NewWatcher ":1.100" ":1.100").2
        = none ∧
    registerTwice.2 = none ∧
    registerTwice.1.items
        = [":1.100/StatusNotifierItem", ":1.100/StatusNotifierItem"] ∧
    RegisteredStatusNotifierItems registerTwice.1
        = [":1.100/StatusNotifierItem", ":1.100/StatusNotifierItem"] ∧
    (registerTwice.1.emitted.filter
        (fun e => e.1 == "StatusNotifierItemRegistered")).length = 2 := by
  decide

/-- The watcher state left behind by a successful `Watcher.Close` on a fresh
watcher. -/
def watcherAfterClose : WatcherState :=
  { closed := true, signalsOpen := false, hosts := [], items := [],
    matchRules := [], emitted := [] }

/-- C4 (refuted — evaluation of the code at the failing input): after a first
successful `Close` of a fresh watcher, a second `Close` does not succeed: it
reaches `close(w.signals)` on the already-closed signals channel and panics,
because `Close` never checks the `closed` flag.  The remaining part of the
claim does hold: `Listen` after `Close` fails with the watcher-is-closed
error. -/
theorem close_second_call_panics :
    Close true NewWatcher = .ok (watcherAfterClose, none) ∧
    Close true watcherAfterClose = .error .closeOfClosedChannel ∧
    Listen true true true watcherAfterClose
        = (watcherAfterClose, some .alreadyClosed) :=
  ⟨rfl, rfl, rfl⟩

/-- C5 (refuted — evaluation of the code at the failing input):
`Item.updateTooltip` stores element index 2 of a well-formed tooltip tuple
and silently absorbs short tuples and non-string third elements, but a
payload that is not a tuple at all is not absorbed: the unchecked type
assertion `tooltip.Value().([]any)` panics. -/
theorem updateTooltip_panics_on_nonslice_payload :
    updateTooltip (some (.vString "boom")) "old"
        = .error .interfaceConversion ∧
    updateTooltip
        (some (.vSlice [.vString "icon", .vSlice [], .vString "T", .vString "d"]))
        "old" = .ok "T" ∧
    updateTooltip (some (.vSlice [.vString "icon", .vSlice []])) "old"
        = .ok "old" ∧
    updateTooltip
        (some (.vSlice [.vString "icon", .vSlice [], .vInt32 3, .vString "d"]))
        "old" = .ok "old" ∧
    updateTooltip none "old" = .ok "old" :=
  ⟨rfl, rfl, rfl, rfl, rfl⟩

/-- C6 (refuted — evaluation of the code at the failing inputs): the
`Category` and `Status` switches compare `dbus.Variant.String()` — which
returns the quoted payload — against unquoted case labels, so every fetched
value, including the valid enumeration members, is stored as the default
`ApplicationStatus` / `Active`. -/
theorem decode_category_status_always_default :
    (∀ s, decodeItemCategory s = .applicationStatus) ∧
    (∀ s, decodeItemStatus s = .active) ∧
    decodeItemCategory "Communications" = .applicationStatus ∧
    decodeItemCategory "SystemServices" = .applicationStatus ∧
    decodeItemCategory "Hardware" = .applicationStatus ∧
    decodeItemStatus "Passive" = .active ∧
    decodeItemStatus "NeedsAttention" = .active := by
  refine ⟨?_, ?_, by decide, by decide, by decide, by decide, by decide⟩
  · intro s
    unfold decodeItemCategory
    split
    · next h => exact absurd h (variantString_ne s "Communications" (by decide))
    · next h => exact absurd h (variantString_ne s "SystemServices" (by decide))
    · next h => exact absurd h (variantString_ne s "Hardware" (by decide))
    · rfl
  · intro s
    unfold decodeItemStatus
    split
    · next h => exact absurd h (variantString_ne s "Passive" (by decide))
    · next h => exact absurd h (variantString_ne s "NeedsAttention" (by decide))
    · rfl

/-- C7: the identifier parser splits at the first `/` into
`(uniqueName, objectPath)` with the slash retained on the path side, and a
string without `/` becomes the unique name with object path defaulting to
`/StatusNotifierItem`. -/
theorem itemName_parser_splits_at_first_slash :
    (∀ u p : String, '/' ∉ u.data →
      uniqueNameAndPathFromItemName (u ++ "/" ++ p) = (u, "/" ++ p)) ∧
    (∀ s : String, '/' ∉ s.data →
      uniqueNameAndPathFromItemName s = (s, "/StatusNotifierItem")) := by
  constructor
  · intro u p h
    have hd : (u ++ "/" ++ p).data = u.data ++ '/' :: p.data := by
      simp [String.data_append]
    unfold uniqueNameAndPathFromItemName
    rw [hd, cutSlash_append u.data p.data h]
    rfl
  · intro s h
    unfold uniqueNameAndPathFromItemName
    rw [cutSlash_not_mem s.data h]
    rfl

/-- Witness for C7: `:1.185/StatusNotifierItem` splits into `:1.185` and
`/StatusNotifierItem`; `:1.50` defaults to path `/StatusNotifierItem`. -/
theorem itemName_parser_splits_at_first_slash_witness :
    uniqueNameAndPathFromItemName (":1.185" ++ "/" ++ "StatusNotifierItem")
        = (":1.185", "/" ++ "StatusNotifierItem") ∧
    uniqueNameAndPathFromItemName ":1.50" = (":1.50", "/StatusNotifierItem") :=
  ⟨itemName_parser_splits_at_first_slash.1 ":1.185" "StatusNotifierItem"
      (by decide),
    itemName_parser_splits_at_first_slash.2 ":1.50" (by decide)⟩

/-- C8 counterexample: the comparator multiplies the `int32` dimensions with
Go `int32` (wrapping) arithmetic, so a `65536 × 65536` icon (true pixel area
`2^32`, wrapped key `0`) sorts before a `1 × 2` icon, and `GetAll` is not
sorted non-decreasing by the exact product `width·height`. -/
theorem iconSet_not_sorted_by_exact_area :
    (NewIconSetFromDBusProperty (GoVal.vSliceSlice
        [[.vInt32 65536, .vInt32 65536, .vBytes []],
          [.vInt32 1, .vInt32 2, .vBytes []]])).map
      (fun s => s.GetAll.map (fun i => i.Width * i.Height))
      = some [4294967296, 2] ∧
    ¬ List.Sorted (fun a b : Int => a ≤ b) [(4294967296 : Int), 2] := by
  constructor
  · decide
  · decide

/-- C8 (amended): for every input array to the icon-set decoder, malformed
tuples are dropped and every well-formed tuple becomes an `Icon` (the result
is a permutation of the decoded tuples), the sequence returned by `GetAll` is
sorted non-decreasing by the Go `int32` product `width·height` (wrapping on
overflow), and `GetSmallest` and `GetLargest` return its first and last
elements. -/
theorem iconSet_sorted_by_wrapped_area (ps : List (List GoVal)) :
    ∃ s : IconSet,
      NewIconSetFromDBusProperty (.vSliceSlice ps) = some s ∧
      List.Perm s.GetAll
        (ps.filterMap (fun p => NewIconFromDBusPixmap (.vSlice p))) ∧
      List.Sorted (fun a b : Icon => a.area ≤ b.area) s.GetAll ∧
      s.GetSmallest = s.GetAll.head? ∧
      s.GetLargest = s.GetAll.getLast? := by
  refine ⟨_, rfl, List.perm_insertionSort _ _, List.sorted_insertionSort _ _,
    ?_, ?_⟩
  · show IconSet.GetSmallest ⟨_⟩ = _
    cases List.insertionSort (fun a b : Icon => a.area ≤ b.area)
      (ps.filterMap (fun p => NewIconFromDBusPixmap (.vSlice p))) <;> rfl
  · show IconSet.GetLargest ⟨_⟩ = _
    cases List.insertionSort (fun a b : Icon => a.area ≤ b.area)
      (ps.filterMap (fun p => NewIconFromDBusPixmap (.vSlice p))) <;> rfl

/-- C9: the layout decoder fails exactly when the top-level value is not a
3-tuple of (`int32` id, string-keyed variant map, variant list); on success
every malformed child is silently dropped and every well-formed child appears
recursively decoded in the `Children` list in its original order
(an order-preserving `filterMap`). -/
theorem newLayoutNode_shape_and_children (v : GoVal) :
    ((NewLayoutNode v).isSome ↔ ∃ id props cs,
        v = .vSlice [.vInt32 id, .vVariantMap props, .vVariantSlice cs]) ∧
    ∀ id props cs,
      NewLayoutNode
          (GoVal.vSlice [.vInt32 id, .vVariantMap props, .vVariantSlice cs])
        = some (.mk id props (cs.filterMap NewLayoutNode)) := by
  constructor
  · unfold NewLayoutNode
    split
    · next id props cs => simp
    · next h =>
      simp only [Option.isSome_none, Bool.false_eq_true, false_iff]
      rintro ⟨id, props, cs, rfl⟩
      exact h id props cs rfl
  · intro id props cs
    show some (LayoutNode.mk id props (layoutChildren cs)) = _
    rw [layoutChildren_eq_filterMap]

/-- C10: when every pixmap tuple of the input is malformed (in particular for
the empty array), the decoder still succeeds with the empty icon set, whose
`GetAll` is the empty sequence and whose `GetSmallest` and `GetLargest` are
`nil`. -/
theorem iconSet_empty_accessors (ps : List (List GoVal))
    (h : ∀ p ∈ ps, NewIconFromDBusPixmap (.vSlice p) = none) :
    NewIconSetFromDBusProperty (.vSliceSlice ps) = some ⟨[]⟩ ∧
    IconSet.GetAll ⟨[]⟩ = [] ∧
    IconSet.GetSmallest ⟨[]⟩ = none ∧
    IconSet.GetLargest ⟨[]⟩ = none := by
  have hf : ps.filterMap (fun p => NewIconFromDBusPixmap (.vSlice p)) = [] :=
    List.filterMap_eq_nil_iff.mpr h
  refine ⟨?_, rfl, rfl, rfl⟩
  show some (⟨List.insertionSort (fun a b : Icon => a.area ≤ b.area)
      (ps.filterMap (fun p => NewIconFromDBusPixmap (.vSlice p)))⟩ : IconSet)
    = some ⟨[]⟩
  rw [hf]
  rfl

/-- Witness for C10: a single malformed pixmap yields the empty icon set. -/
theorem iconSet_empty_accessors_witness :
    NewIconSetFromDBusProperty (.vSliceSlice [[GoVal.vString "bad"]])
        = some ⟨[]⟩ ∧
    IconSet.GetAll ⟨[]⟩ = [] ∧
    IconSet.GetSmallest ⟨[]⟩ = none ∧
    IconSet.GetLargest ⟨[]⟩ = none :=
  iconSet_empty_accessors [[GoVal.vString "bad"]] (by decide)

end Systray
